import Mathlib

/-!
Shallow embedding of `server.py` from the twilio-prometheus-adapter
repository: a Flask webhook relay that parses alert batches, dispatches
outbound Twilio voice calls (single target and fan-out), and maintains a
dead-man-switch timestamp.

Python JSON values are modelled by the inductive `Json`; Python attribute
and type errors raised while traversing a payload are modelled by `PyErr`
inside `Except`.  Handlers are pure functions of their configuration, the
inbound payload and an abstract telephony provider; each handler also
returns the list of provider calls it issued, so that claims about when
the dispatcher is invoked can be stated.  Wall-clock instants are
modelled by rationals.
-/

namespace TwilioAdapter

/-- A Python/JSON value as it appears in a webhook payload. -/
inductive Json where
  | null
  | bool (b : Bool)
  | num (n : Int)
  | str (s : String)
  | arr (xs : List Json)
  | obj (kvs : List (String × Json))

/-- Python exceptions that payload traversal can raise. -/
inductive PyErr where
  | attributeError
  | typeError
deriving DecidableEq, Repr

/-- Python message for the modelled exception, as `str(e)` would render its
class flavor. -/
def pyErrStr : PyErr → String
  | .attributeError => "AttributeError"
  | .typeError => "TypeError"

/-- Python `x.get(key, default)`: succeeds only on a dict; any other
receiver has no `get` attribute and raises `AttributeError`. -/
def dictGet (j : Json) (key : String) (dflt : Json) : Except PyErr Json :=
  match j with
  | .obj kvs => .ok ((kvs.lookup key).getD dflt)
  | _ => .error .attributeError

/-- Python iteration `for x in j`: lists yield their elements, strings yield
one-character strings, dicts yield their keys, everything else raises
`TypeError`. -/
def pyIter : Json → Except PyErr (List Json)
  | .arr xs => .ok xs
  | .str s => .ok (s.toList.map (fun c => .str (String.mk [c])))
  | .obj kvs => .ok (kvs.map (fun kv => .str kv.1))
  | _ => .error .typeError

/-- Python `==` between a value and the string literal `s`: true exactly for
the equal string. -/
def jsonIsStr (j : Json) (s : String) : Bool :=
  match j with
  | .str t => t = s
  | _ => false

/-- Whether a value is a Python dict. -/
def isDictB : Json → Bool
  | .obj _ => true
  | _ => false

/-- Python `repr`, restricted to the shapes a payload can hold (string
escaping inside reprs is not needed by any claim). -/
def pyRepr : Json → String
  | .null => "None"
  | .bool true => "True"
  | .bool false => "False"
  | .num n => toString n
  | .str s => "\x27" ++ s ++ "\x27"
  | .arr xs =>
      "[" ++ String.intercalate ", " (xs.attach.map (fun a => pyRepr a.1)) ++ "]"
  | .obj kvs =>
      "\x7b" ++
        String.intercalate ", "
          (kvs.attach.map
            (fun kv => "\x27" ++ kv.1.1 ++ "\x27: " ++ pyRepr kv.1.2)) ++
      "\x7d"
decreasing_by
  · have h := List.sizeOf_lt_of_mem a.2
    simp only [Json.arr.sizeOf_spec]
    omega
  · have h := List.sizeOf_lt_of_mem kv.2
    have h2 : sizeOf kv.1 = 1 + sizeOf kv.1.1 + sizeOf kv.1.2 := by
      cases kv.1
      simp
    simp only [Json.obj.sizeOf_spec]
    omega

/-- Python `str`, as used by f-string interpolation. -/
def pyStr (j : Json) : String :=
  match j with
  | .str s => s
  | _ => pyRepr j

/-- The loop body of `find_first_firing_alert` over the alert sequence:
return the first element whose `status` equals `"firing"`. -/
def findLoop : List Json → Except PyErr (Option Json)
  | [] => .ok none
  | a :: rest =>
    match dictGet a "status" Json.null with
    | .error e => .error e
    | .ok st => if jsonIsStr st "firing" then .ok (some a) else findLoop rest

/-- The function `find_first_firing_alert(alerts_json)` from server.py lines 30-35:
`for alert in alerts_json.get("alerts", []): if alert.get("status") ==
"firing": return alert`, else `None`. -/
def find_first_firing_alert (alerts_json : Json) : Except PyErr (Option Json) :=
  match dictGet alerts_json "alerts" (Json.arr []) with
  | .error e => .error e
  | .ok alerts =>
    match pyIter alerts with
    | .error e => .error e
    | .ok items => findLoop items

/-- Bool test used in statements: the value is a dict whose `status` entry
equals the string `"firing"`. -/
def hasFiringStatus : Json → Bool
  | .obj kvs => jsonIsStr ((kvs.lookup "status").getD Json.null) "firing"
  | _ => false

/-- The function `build_twiml_from_alert(alert)` from server.py lines 38-40: read
`labels.alertname` with fallback `"Unknown Alert"`, and interpolate it raw
into the TwiML f-string. -/
def build_twiml_from_alert (alert : Json) : Except PyErr (Json × String) :=
  match dictGet alert "labels" (Json.obj []) with
  | .error e => .error e
  | .ok labels =>
    match dictGet labels "alertname" (Json.str "Unknown Alert") with
    | .error e => .error e
    | .ok an =>
      .ok (an, "<Response><Say>Alert triggered: " ++ pyStr an ++ "</Say></Response>")

/-- How Python interpolates an optional environment value into an f-string:
an unset variable is the object `None`, rendered `"None"`. -/
def optStr : Option String → String
  | none => "None"
  | some s => s

/-- The URL built by `initiate_twilio_call` (server.py line 44), with the
account SID interpolated even when unset. -/
def initiate_twilio_url (sid : Option String) : String :=
  "https://api.twilio.com/2010-04-01/Accounts/" ++ optStr sid ++ "/Calls.json"

/-- Outcome entry appended to `results` by the fan-out loop
(server.py lines 175 and 182); `target` models the dict key named after
the called number. -/
structure CallResult where
  target : String
  success : Bool
  details : Option String
deriving DecidableEq, Repr

/-- Response body of the `/twilio-call` handler. -/
inductive CallOneBody where
  | skip (msg : String)
  | ok (msg : String)
  | err (msg : String) (details : Option String)
deriving DecidableEq, Repr

/-- The handler `twilio_call` (server.py lines 99-137), as a function of the configured
single target number, an abstract provider returning (status code, body
text) for a (to, twiml) request, and the inbound payload.  Returns the
response body with its HTTP status, paired with the list of provider calls
issued. -/
def twilio_call (to_number : Option String)
    (provider : Option String → String → Nat × String) (data : Json) :
    (CallOneBody × Nat) × List (Option String × String) :=
  match find_first_firing_alert data with
  | .error e => ((.err "Internal server error" (some (pyErrStr e)), 500), [])
  | .ok none => ((.skip "No firing alerts, skipping call", 200), [])
  | .ok (some alert) =>
    match build_twiml_from_alert alert with
    | .error e => ((.err "Internal server error" (some (pyErrStr e)), 500), [])
    | .ok (_, twiml) =>
      let resp := provider to_number twiml
      if resp.1 = 201 then
        ((.ok "Call initiated successfully", 200), [(to_number, twiml)])
      else
        ((.err "Failed to initiate call" (some resp.2), 500), [(to_number, twiml)])

/-- Characters stripped by Python `str.strip()` (ASCII whitespace). -/
def isPySpace (c : Char) : Bool :=
  c = ' ' || c = '\t' || c = '\n' || c = '\r' ||
  c = Char.ofNat 11 || c = Char.ofNat 12

/-- Python `str.strip()` on the character list. -/
def stripChars (l : List Char) : List Char :=
  ((l.dropWhile isPySpace).reverse.dropWhile isPySpace).reverse

/-- Python `s.split(",")` on the character list; the empty string splits to
one empty piece, matching Python. -/
def splitComma : List Char → List (List Char)
  | [] => [[]]
  | c :: rest =>
    if c = ',' then [] :: splitComma rest
    else
      match splitComma rest with
      | [] => [[c]]
      | g :: gs => (c :: g) :: gs

/-- The comprehension `[n.strip() for n in TO_NUMBERS_ALL.split(",") if n.strip()]` from
server.py line 163. -/
def parseNumbers (s : String) : List String :=
  ((splitComma s.toList).map (fun g => String.mk (stripChars g))).filter
    (fun t => t != "")

/-- The sequential fan-out loop of `twilio_call_all` (server.py lines
166-182): one provider call per target in order, appending a success entry
on HTTP 201 and a failure entry with the response text otherwise.  The
second component is the list of targets actually called, in call order. -/
def callLoop (provider : String → String → Nat × String) (twiml : String) :
    List String → List CallResult × List String
  | [] => ([], [])
  | n :: rest =>
    let resp := provider n twiml
    let r :=
      if resp.1 = 201 then CallResult.mk n true none
      else CallResult.mk n false (some resp.2)
    let tail := callLoop provider twiml rest
    (r :: tail.1, n :: tail.2)

/-- Response body of the `/twilio-call-all` handler. -/
inductive CallAllBody where
  | error (msg : String) (details : Option String)
  | skip (msg : String)
  | processed (message : String) (successes failures : Nat)
      (results : List CallResult)
deriving DecidableEq, Repr

/-- The handler `twilio_call_all` (server.py lines 139-197), as a function of the
`TO_NUMBERS_ALL` environment value (None when unset; the Python guard
`if not TO_NUMBERS_ALL` also rejects the empty string), an abstract
provider, and the inbound payload.  Returns the response body with its
HTTP status, paired with the list of provider calls issued. -/
def twilio_call_all (cfg : Option String)
    (provider : String → String → Nat × String) (data : Json) :
    (CallAllBody × Nat) × List String :=
  match cfg with
  | none => ((.error "TO_NUMBERS_ALL env var not set" none, 400), [])
  | some s =>
    if s = "" then ((.error "TO_NUMBERS_ALL env var not set" none, 400), [])
    else
      match find_first_firing_alert data with
      | .error e => ((.error "Internal server error" (some (pyErrStr e)), 500), [])
      | .ok none => ((.skip "No firing alerts, skipping calls", 200), [])
      | .ok (some alert) =>
        match build_twiml_from_alert alert with
        | .error e => ((.error "Internal server error" (some (pyErrStr e)), 500), [])
        | .ok (_, twiml) =>
          let to_numbers := parseNumbers s
          let loop := callLoop provider twiml to_numbers
          let results := loop.1
          let successes := results.countP (fun r => r.success)
          let failures := results.length - successes
          ((.processed "Calls processed" successes failures results,
            if failures = 0 then 200 else 207), loop.2)

/-- Response of the GET branch of `deadmansswitch` (server.py lines 75-97). -/
structure DmsGetResponse where
  status : String
  message : Option String
  seconds_since_last_ping : ℚ
  http : Nat
deriving DecidableEq, Repr

/-- GET `/dms`: elapsed = now - last_post_time; strictly more than 120
seconds yields the error body with HTTP 500, otherwise ok with 200. -/
def deadmansswitch_get (current_time last_post_time : ℚ) : DmsGetResponse :=
  let elapsed := current_time - last_post_time
  if elapsed > 120 then
    { status := "error",
      message := some "No ping received for over 2 minutes",
      seconds_since_last_ping := elapsed,
      http := 500 }
  else
    { status := "ok",
      message := none,
      seconds_since_last_ping := elapsed,
      http := 200 }

/-- POST `/dms` (server.py lines 68-73): overwrite the timestamp with the
current time and acknowledge with HTTP 200. -/
def deadmansswitch_post (now : ℚ) : ℚ × (String × Nat) :=
  (now, ("Ping received", 200))

/-- One request touching the dead-man-switch state, stamped with the wall
clock at which it is served. -/
inductive DmsEvent where
  | ping (t : ℚ)
  | check (t : ℚ)

/-- The clock reading at which the event is served. -/
def eventTime : DmsEvent → ℚ
  | .ping t => t
  | .check t => t

/-- Effect of one request on `last_post_time`: a ping overwrites it with
the current time, a liveness check only reads it. -/
def dmsStep (s : ℚ) : DmsEvent → ℚ
  | .ping t => (deadmansswitch_post t).1
  | .check _ => s

/-- The result entry the fan-out loop produces for one target, as a
function of the provider response (loop body of server.py lines 166-182). -/
def mkResult (provider : String → String → Nat × String) (twiml n : String) :
    CallResult :=
  if (provider n twiml).1 = 201 then CallResult.mk n true none
  else CallResult.mk n false (some (provider n twiml).2)

/-- Concrete resolved alert used to instantiate theorems. -/
def alertResolved : Json := .obj [("status", .str "resolved")]

/-- Concrete firing alert named DiskFull used to instantiate theorems. -/
def alertFiringDisk : Json :=
  .obj [("status", .str "firing"),
        ("labels", .obj [("alertname", .str "DiskFull")])]

/-- Concrete payload: one resolved alert followed by a firing one. -/
def firingData : Json := .obj [("alerts", .arr [alertResolved, alertFiringDisk])]

/-- Concrete payload with no firing alert. -/
def resolvedData : Json := .obj [("alerts", .arr [alertResolved])]

/-- Concrete malformed payload: the alerts array holds a number, so
`alert.get` raises `AttributeError`. -/
def malformedData : Json := .obj [("alerts", .arr [.num 5])]

/-- Firing alert whose name carries TwiML markup characters. -/
def injAlert : Json :=
  .obj [("status", .str "firing"),
        ("labels", .obj [("alertname", .str "<Hangup/>")])]

end TwilioAdapter

namespace TwilioAdapter

/-! ## Helper lemmas -/

theorem findLoop_all_dict (xs : List Json) (h : ∀ a ∈ xs, isDictB a = true) :
    findLoop xs = Except.ok (xs.find? hasFiringStatus) := by
  induction xs with
  | nil => rfl
  | cons a rest ih =>
    have ha := h a (List.mem_cons_self a rest)
    have hr := ih (fun b hb => h b (List.mem_cons_of_mem a hb))
    cases a with
    | obj kvs =>
      by_cases hfb : jsonIsStr ((kvs.lookup "status").getD Json.null) "firing"
      · simp [findLoop, dictGet, List.find?, hasFiringStatus, hfb]
      · simp [findLoop, dictGet, List.find?, hasFiringStatus, hfb, hr]
    | null => simp [isDictB] at ha
    | bool b => simp [isDictB] at ha
    | num n => simp [isDictB] at ha
    | str s => simp [isDictB] at ha
    | arr l => simp [isDictB] at ha

theorem findLoop_some_firing (xs : List Json) (a : Json)
    (h : findLoop xs = Except.ok (some a)) : hasFiringStatus a = true := by
  induction xs with
  | nil => simp [findLoop] at h
  | cons b rest ih =>
    cases b with
    | obj kvs =>
      by_cases hfb : jsonIsStr ((kvs.lookup "status").getD Json.null) "firing"
      · simp [findLoop, dictGet, hfb] at h
        subst h
        simpa [hasFiringStatus] using hfb
      · simp [findLoop, dictGet, hfb] at h
        exact ih h
    | null => simp [findLoop, dictGet] at h
    | bool c => simp [findLoop, dictGet] at h
    | num n => simp [findLoop, dictGet] at h
    | str s => simp [findLoop, dictGet] at h
    | arr l => simp [findLoop, dictGet] at h

theorem find?_first_match {α : Type} (p : α → Bool) (pre post : List α) (a : α)
    (hpre : ∀ b ∈ pre, p b = false) (ha : p a = true) :
    (pre ++ a :: post).find? p = some a := by
  induction pre with
  | nil => simp [List.find?, ha]
  | cons b bs ih =>
    have hb := hpre b (List.mem_cons_self b bs)
    simp only [List.cons_append, List.find?, hb]
    exact ih (fun c hc => hpre c (List.mem_cons_of_mem b hc))

end TwilioAdapter

namespace TwilioAdapter

/-! ## Claim theorems -/

/-- Claim C1: for every alert batch, the parser returns the first alert in
original order whose status equals "firing", and returns None when no
alert in the batch has status "firing" or the batch is empty, regardless
of how many resolved or other alerts precede or follow the firing one.
Stated for batches whose alert entries are dicts, via the first-match
semantics of `List.find?`, made explicit by the last two conjuncts. -/
theorem find_first_firing_alert_spec (xs : List Json)
    (h : ∀ a ∈ xs, isDictB a = true) :
    find_first_firing_alert (Json.obj [("alerts", Json.arr xs)]) =
      Except.ok (xs.find? hasFiringStatus) ∧
    (xs.find? hasFiringStatus = none ↔ ∀ a ∈ xs, hasFiringStatus a = false) ∧
    (∀ pre a post, xs = pre ++ a :: post →
      (∀ b ∈ pre, hasFiringStatus b = false) → hasFiringStatus a = true →
      xs.find? hasFiringStatus = some a) := by
  refine ⟨?_, ?_, ?_⟩
  · simp only [find_first_firing_alert, dictGet, List.lookup, pyIter]
    simpa using findLoop_all_dict xs h
  · simp [List.find?_eq_none]
  · intro pre a post hx hpre ha
    subst hx
    exact find?_first_match hasFiringStatus pre post a hpre ha

/-- Witness for C1 at a concrete batch: a resolved alert followed by two
firing ones; the first firing alert is returned. -/
theorem find_first_firing_alert_spec_witness :
    find_first_firing_alert
        (Json.obj [("alerts", Json.arr
          [alertResolved, alertFiringDisk, injAlert])]) =
      Except.ok (some alertFiringDisk) := by
  have h :=
    (find_first_firing_alert_spec [alertResolved, alertFiringDisk, injAlert]
      (by decide)).1
  rw [h]
  rfl

/-- Claim C9: alert status matching is exact, case-sensitive string
equality; any alert selected by the parser has status exactly "firing",
and alerts with status "Firing", "FIRING" or "firing " are never
selected. -/
theorem firing_match_case_sensitive :
    (∀ (alerts_json a : Json),
      find_first_firing_alert alerts_json = Except.ok (some a) →
        hasFiringStatus a = true) ∧
    hasFiringStatus (Json.obj [("status", Json.str "Firing")]) = false ∧
    hasFiringStatus (Json.obj [("status", Json.str "FIRING")]) = false ∧
    find_first_firing_alert (Json.obj [("alerts", Json.arr
        [Json.obj [("status", Json.str "Firing")],
         Json.obj [("status", Json.str "FIRING")],
         Json.obj [("status", Json.str "firing ")]])]) =
      Except.ok none := by
  refine ⟨?_, by decide, by decide, by rfl⟩
  intro alerts_json a hfa
  unfold find_first_firing_alert at hfa
  cases hd : dictGet alerts_json "alerts" (Json.arr []) with
  | error e => simp [hd] at hfa
  | ok alerts =>
    simp only [hd] at hfa
    cases hi : pyIter alerts with
    | error e => simp [hi] at hfa
    | ok items =>
      simp only [hi] at hfa
      exact findLoop_some_firing items a hfa

/-- Witness for C9: the firing alert returned on a concrete batch indeed
has status exactly "firing". -/
theorem firing_match_case_sensitive_witness :
    hasFiringStatus alertFiringDisk = true :=
  firing_match_case_sensitive.1 firingData alertFiringDisk (by rfl)

/-- Claim C2 (code bug): the builder performs no escaping. An alertname
containing markup characters is interpolated raw into the TwiML, so the
produced script carries an injected Hangup tag instead of neutralized
text. The second conjunct shows this alert is exactly what the parser
hands to the builder. -/
theorem build_twiml_no_escaping :
    build_twiml_from_alert injAlert =
      Except.ok (Json.str "<Hangup/>",
        "<Response><Say>Alert triggered: <Hangup/></Say></Response>") ∧
    find_first_firing_alert (Json.obj [("alerts", Json.arr [injAlert])]) =
      Except.ok (some injAlert) := by
  exact ⟨by rfl, by rfl⟩

end TwilioAdapter

namespace TwilioAdapter

theorem callLoop_eq (provider : String → String → Nat × String) (twiml : String)
    (l : List String) :
    callLoop provider twiml l = (l.map (mkResult provider twiml), l) := by
  induction l with
  | nil => rfl
  | cons n rest ih => simp [callLoop, mkResult, ih]

theorem countP_success_map (provider : String → String → Nat × String)
    (twiml : String) (l : List String) :
    (l.map (mkResult provider twiml)).countP (fun r => r.success) =
      l.countP (fun n => (provider n twiml).1 == 201) := by
  rw [List.countP_map]
  refine List.countP_congr ?_
  intro n _
  by_cases h : (provider n twiml).1 = 201 <;>
    simp [Function.comp, mkResult, h]

theorem countP_add_countP_not {α : Type} (p : α → Bool) (l : List α) :
    l.countP p + l.countP (fun a => !(p a)) = l.length := by
  induction l with
  | nil => rfl
  | cons a rest ih =>
    by_cases h : p a <;>
      simp [List.countP_cons, h, Bool.not_eq_true] <;> omega

/-- Claim C3: for every non-empty list of targets, the fan-out handler
invokes one provider call per target sequentially in order with no early
exit, classifies a call as success exactly on HTTP 201, and returns
`successes = N - k`, `failures = k`, all `N` results mapped to their
targets in order, with HTTP status 200 when `k = 0` and 207 otherwise,
where `k` counts the targets the provider answers with a non-201 status. -/
theorem twilio_call_all_dispatch (s : String)
    (provider : String → String → Nat × String) (data alert nm : Json)
    (tw : String)
    (hf : find_first_firing_alert data = Except.ok (some alert))
    (hb : build_twiml_from_alert alert = Except.ok (nm, tw))
    (hne : s ≠ "") (_hts : parseNumbers s ≠ []) :
    twilio_call_all (some s) provider data =
      ((CallAllBody.processed "Calls processed"
          ((parseNumbers s).length -
            ((parseNumbers s).filter
              (fun n => (provider n tw).1 != 201)).length)
          ((parseNumbers s).filter
            (fun n => (provider n tw).1 != 201)).length
          ((parseNumbers s).map (mkResult provider tw)),
        if ((parseNumbers s).filter
              (fun n => (provider n tw).1 != 201)).length = 0
        then 200 else 207),
       parseNumbers s) := by
  have hcount := countP_success_map provider tw (parseNumbers s)
  have hsplit :=
    countP_add_countP_not (fun n => (provider n tw).1 == 201) (parseNumbers s)
  have hfilter :
      ((parseNumbers s).filter (fun n => (provider n tw).1 != 201)).length =
        (parseNumbers s).countP (fun n => !((provider n tw).1 == 201)) := by
    rw [← List.countP_eq_length_filter]
    refine List.countP_congr ?_
    intro n _
    simp [bne]
  have h1 : ((parseNumbers s).map (mkResult provider tw)).countP
      (fun r => r.success) =
      (parseNumbers s).length -
        ((parseNumbers s).filter
          (fun n => (provider n tw).1 != 201)).length := by
    rw [hcount, hfilter]
    omega
  have h2 : ((parseNumbers s).map (mkResult provider tw)).length -
      ((parseNumbers s).length -
        ((parseNumbers s).filter
          (fun n => (provider n tw).1 != 201)).length) =
      ((parseNumbers s).filter
        (fun n => (provider n tw).1 != 201)).length := by
    rw [List.length_map, hfilter]
    omega
  simp only [twilio_call_all, if_neg hne, hf, hb, callLoop_eq, h1, h2]

end TwilioAdapter

namespace TwilioAdapter

/-- Witness for C3 over three concrete targets with the provider failing
on the middle one: two successes, one failure, all results in order,
HTTP 207. -/
theorem twilio_call_all_dispatch_witness :
    twilio_call_all (some "+1,+2,+3")
        (fun n _ => (if n = "+2" then 500 else 201, "boom")) firingData =
      ((CallAllBody.processed "Calls processed" 2 1
          [CallResult.mk "+1" true none,
           CallResult.mk "+2" false (some "boom"),
           CallResult.mk "+3" true none], 207),
       ["+1", "+2", "+3"]) := by
  have h := twilio_call_all_dispatch "+1,+2,+3"
    (fun n _ => (if n = "+2" then 500 else 201, "boom"))
    firingData alertFiringDisk (Json.str "DiskFull")
    "<Response><Say>Alert triggered: DiskFull</Say></Response>"
    (by rfl) (by rfl) (by decide) (by decide)
  rw [h]
  rfl

/-- Claim C4 counterexample: a configured fan-out value consisting of a
single comma passes the truthiness guard, parses to an empty effective
target list, and the handler answers HTTP 200 (not the claimed 400) after
issuing zero provider calls. -/
theorem comma_config_no_config_error :
    parseNumbers "," = [] ∧
    twilio_call_all (some ",") (fun _ _ => (201, "ok")) firingData =
      ((CallAllBody.processed "Calls processed" 0 0 [], 200), []) ∧
    (twilio_call_all (some ",") (fun _ _ => (201, "ok")) firingData).1.2 ≠ 400 := by
  refine ⟨by rfl, by rfl, by decide⟩

/-- Claim C4 as amended: the fan-out handler fails fast with the
configuration error (HTTP 400) and issues zero provider calls exactly
when the configured value is unset or the empty string; a non-empty
value whose effective target list is empty instead yields HTTP 200 with
zero calls. -/
theorem empty_config_fails_fast (cfg : Option String)
    (provider : String → String → Nat × String) (data : Json)
    (h : cfg = none ∨ cfg = some "") :
    twilio_call_all cfg provider data =
      ((CallAllBody.error "TO_NUMBERS_ALL env var not set" none, 400), []) := by
  rcases h with h | h <;> subst h <;> simp [twilio_call_all]

/-- Witness for the amended C4 with the variable unset. -/
theorem empty_config_fails_fast_witness :
    twilio_call_all none (fun _ _ => (201, "ok")) firingData =
      ((CallAllBody.error "TO_NUMBERS_ALL env var not set" none, 400), []) :=
  empty_config_fails_fast none (fun _ _ => (201, "ok")) firingData (Or.inl rfl)

/-- Claim C7 counterexample: the malformed payload whose alerts array
holds a number contains no firing alert, yet the handler answers HTTP 500
(internal error), not the claimed 200 no-op; the dispatcher is still not
invoked. -/
theorem malformed_payload_is_500 :
    twilio_call (some "+15550100") (fun _ _ => (201, "ok")) malformedData =
      ((CallOneBody.err "Internal server error" (some "AttributeError"), 500),
       []) ∧
    (twilio_call (some "+15550100") (fun _ _ => (201, "ok")) malformedData).1.2
      ≠ 200 := by
  refine ⟨by rfl, by decide⟩

/-- Claim C7 as amended: a payload on which the parser finds no firing
alert yields the HTTP 200 no-op and no provider call, while a payload on
which the parser raises (type-malformed shapes) yields HTTP 500, also
with no provider call; in neither case is the dispatcher invoked. -/
theorem no_firing_no_dispatch (to_number : Option String)
    (provider : Option String → String → Nat × String) (data : Json) :
    (find_first_firing_alert data = Except.ok none →
      twilio_call to_number provider data =
        ((CallOneBody.skip "No firing alerts, skipping call", 200), [])) ∧
    (∀ e, find_first_firing_alert data = Except.error e →
      twilio_call to_number provider data =
        ((CallOneBody.err "Internal server error" (some (pyErrStr e)), 500),
         [])) := by
  constructor
  · intro h
    simp [twilio_call, h]
  · intro e h
    simp [twilio_call, h]

/-- Witness for the amended C7 on a batch holding only a resolved alert. -/
theorem no_firing_no_dispatch_witness :
    twilio_call none (fun _ _ => (201, "ok")) resolvedData =
      ((CallOneBody.skip "No firing alerts, skipping call", 200), []) :=
  (no_firing_no_dispatch none (fun _ _ => (201, "ok")) resolvedData).1 (by rfl)

/-- Claim C8 counterexample: with the single to-number unset, the handler
does not reject the request with 400; it issues the provider call anyway
(with the missing value passed through) and reports success. -/
theorem missing_to_number_not_validated :
    twilio_call none (fun _ _ => (201, "ok")) firingData =
      ((CallOneBody.ok "Call initiated successfully", 200),
       [(none, "<Response><Say>Alert triggered: DiskFull</Say></Response>")]) ∧
    (twilio_call none (fun _ _ => (201, "ok")) firingData).2 ≠ [] := by
  refine ⟨by rfl, by decide⟩

/-- Claim C8 as amended: only the fan-out list is validated before use
(unset or empty yields a request-time 400 with zero provider calls); the
account SID, auth token, from-number and single to-number are never
validated — a missing SID is interpolated as the text None into the
provider URL, and a missing to-number still produces a provider call. -/
theorem config_validation_only_fanout :
    (∀ (provider : String → String → Nat × String) (data : Json),
      twilio_call_all none provider data =
        ((CallAllBody.error "TO_NUMBERS_ALL env var not set" none, 400), [])) ∧
    (∀ (provider : String → String → Nat × String) (data : Json),
      twilio_call_all (some "") provider data =
        ((CallAllBody.error "TO_NUMBERS_ALL env var not set" none, 400), [])) ∧
    initiate_twilio_url none =
      "https://api.twilio.com/2010-04-01/Accounts/None/Calls.json" ∧
    (∀ (provider : Option String → String → Nat × String)
        (data alert nm : Json) (tw : String),
      find_first_firing_alert data = Except.ok (some alert) →
      build_twiml_from_alert alert = Except.ok (nm, tw) →
      (twilio_call none provider data).2 = [(none, tw)]) := by
  refine ⟨fun provider data => by simp [twilio_call_all],
          fun provider data => by simp [twilio_call_all],
          by rfl, ?_⟩
  intro provider data alert nm tw hf hb
  simp only [twilio_call, hf, hb]
  by_cases h : (provider none tw).1 = 201 <;> simp [h]

/-- Witness for the amended C8: the single-call handler issues exactly
one provider call although the to-number is unset. -/
theorem config_validation_only_fanout_witness :
    (twilio_call none (fun _ _ => (201, "ok")) firingData).2 =
      [(none, "<Response><Say>Alert triggered: DiskFull</Say></Response>")] :=
  config_validation_only_fanout.2.2.2 (fun _ _ => (201, "ok")) firingData
    alertFiringDisk (Json.str "DiskFull")
    "<Response><Say>Alert triggered: DiskFull</Say></Response>"
    (by rfl) (by rfl)

end TwilioAdapter

namespace TwilioAdapter

/-- Claim C5 counterexample: at elapsed 121 seconds the liveness response
carries status field "error", not the claimed "stale", alongside HTTP 500
and the elapsed seconds. -/
theorem dms_stale_status_counterexample :
    (deadmansswitch_get 121 0).status = "error" ∧
    (deadmansswitch_get 121 0).status ≠ "stale" ∧
    (deadmansswitch_get 121 0).http = 500 ∧
    (deadmansswitch_get 121 0).seconds_since_last_ping = 121 := by
  have h : deadmansswitch_get 121 0 =
      { status := "error",
        message := some "No ping received for over 2 minutes",
        seconds_since_last_ping := 121, http := 500 } := by
    simp only [deadmansswitch_get]
    norm_num
  rw [h]
  exact ⟨rfl, by decide, rfl, rfl⟩

/-- Claim C5 as amended: with elapsed = now - last_ping, elapsed over 120
seconds yields the error-status body (field value "error", denoting the
stale condition) with HTTP 500, otherwise status "ok" with HTTP 200, and
both responses report the elapsed seconds since the last ping. -/
theorem deadmansswitch_get_spec (now last : ℚ) :
    (now - last > 120 →
      deadmansswitch_get now last =
        { status := "error",
          message := some "No ping received for over 2 minutes",
          seconds_since_last_ping := now - last, http := 500 }) ∧
    (¬ now - last > 120 →
      deadmansswitch_get now last =
        { status := "ok", message := none,
          seconds_since_last_ping := now - last, http := 200 }) := by
  constructor <;> intro h <;> simp [deadmansswitch_get, h]

/-- Witness for the amended C5 in the stale branch. -/
theorem deadmansswitch_get_spec_witness :
    deadmansswitch_get 121 0 =
      { status := "error",
        message := some "No ping received for over 2 minutes",
        seconds_since_last_ping := 121 - 0, http := 500 } :=
  (deadmansswitch_get_spec 121 0).1 (by norm_num)

theorem chain_le_of_le {a b : ℚ} {l : List ℚ} (hab : a ≤ b)
    (h : List.Chain (fun x y => x ≤ y) b l) :
    List.Chain (fun x y => x ≤ y) a l := by
  cases h with
  | nil => exact List.Chain.nil
  | cons hbc hc => exact List.Chain.cons (le_trans hab hbc) hc

theorem chain'_scanl_dms (evs : List DmsEvent) : ∀ t0 : ℚ,
    List.Chain (fun a b => a ≤ b) t0 (evs.map eventTime) →
    List.Chain' (fun a b => a ≤ b) (List.scanl dmsStep t0 evs) := by
  induction evs with
  | nil =>
    intro t0 _
    simp
  | cons e es ih =>
    intro t0 h
    rw [List.map_cons] at h
    cases h with
    | cons hle htl =>
      rw [List.scanl_cons, List.singleton_append, List.chain'_cons']
      constructor
      · intro y hy
        have hhead : (List.scanl dmsStep (dmsStep t0 e) es).head? =
            some (dmsStep t0 e) := by
          cases es <;> simp [List.scanl]
        rw [hhead] at hy
        simp only [Option.mem_def, Option.some.injEq] at hy
        subst hy
        cases e with
        | ping t => exact hle
        | check t => exact le_refl t0
      · cases e with
        | ping t => exact ih t htl
        | check t => exact ih t0 (chain_le_of_le hle htl)

/-- Claim C6: under a non-decreasing clock, last_post_time is monotonically
non-decreasing along every sequence of requests: the trace of states
reached from the start time is a non-decreasing chain, the liveness check
leaves the state unchanged (read only), and each ping overwrites it with
the current time. -/
theorem last_ping_monotone (t0 : ℚ) (evs : List DmsEvent)
    (hclock : List.Chain (fun a b => a ≤ b) t0 (evs.map eventTime)) :
    List.Chain' (fun a b => a ≤ b) (List.scanl dmsStep t0 evs) ∧
    (∀ (s t : ℚ), dmsStep s (DmsEvent.check t) = s) ∧
    (∀ (s t : ℚ), dmsStep s (DmsEvent.ping t) = t) :=
  ⟨chain'_scanl_dms evs t0 hclock, fun _ _ => rfl, fun _ _ => rfl⟩

/-- Witness for C6 on a concrete trace: start at time 0, ping at 1, check
at 2, ping at 3. -/
theorem last_ping_monotone_witness :
    List.Chain' (fun a b => a ≤ b)
      (List.scanl dmsStep 0
        [DmsEvent.ping 1, DmsEvent.check 2, DmsEvent.ping 3]) :=
  (last_ping_monotone 0 [DmsEvent.ping 1, DmsEvent.check 2, DmsEvent.ping 3]
    (by simp [List.chain_cons, eventTime]; norm_num)).1

theorem splitComma_ne_nil (l : List Char) : splitComma l ≠ [] := by
  cases l with
  | nil => simp [splitComma]
  | cons c rest =>
    by_cases h : c = ','
    · simp [splitComma, h]
    · simp only [splitComma, if_neg h]
      cases splitComma rest <;> simp

theorem splitComma_all_space (l : List Char)
    (h : ∀ c ∈ l, c = ',' ∨ isPySpace c = true) :
    ∀ g ∈ splitComma l, ∀ c ∈ g, isPySpace c = true := by
  induction l with
  | nil =>
    intro g hg c hc
    simp only [splitComma, List.mem_singleton] at hg
    subst hg
    simp at hc
  | cons a rest ih =>
    have ha := h a (List.mem_cons_self a rest)
    have hr := ih (fun c hc => h c (List.mem_cons_of_mem a hc))
    intro g hg c hc
    by_cases hcomma : a = ','
    · simp only [splitComma, if_pos hcomma] at hg
      rcases List.mem_cons.mp hg with hgnil | hgmem
      · subst hgnil
        simp at hc
      · exact hr g hgmem c hc
    · have hsp : isPySpace a = true := by
        rcases ha with h1 | h1
        · exact absurd h1 hcomma
        · exact h1
      simp only [splitComma, if_neg hcomma] at hg
      cases hsc : splitComma rest with
      | nil => exact absurd hsc (splitComma_ne_nil rest)
      | cons g0 gs =>
        rw [hsc] at hg
        rcases List.mem_cons.mp hg with hgeq | hgmem
        · subst hgeq
          rcases List.mem_cons.mp hc with hceq | hcmem
          · subst hceq
            exact hsp
          · exact hr g0 (by rw [hsc]; exact List.mem_cons_self g0 gs) c hcmem
        · exact hr g (by rw [hsc]; exact List.mem_cons_of_mem g0 hgmem) c hc

theorem stripChars_eq_nil (g : List Char)
    (h : ∀ c ∈ g, isPySpace c = true) : stripChars g = [] := by
  have hd : g.dropWhile isPySpace = [] := List.dropWhile_eq_nil_iff.mpr h
  simp [stripChars, hd]

theorem parseNumbers_sep_only (s : String)
    (h : ∀ c ∈ s.toList, c = ',' ∨ isPySpace c = true) :
    parseNumbers s = [] := by
  unfold parseNumbers
  rw [List.filter_eq_nil_iff]
  intro t ht
  rcases List.mem_map.mp ht with ⟨g, hg, rfl⟩
  have hnil : stripChars g = [] :=
    stripChars_eq_nil g (splitComma_all_space s.toList h g hg)
  rw [hnil]
  decide

/-- Claim C10: the fan-out target list is the configured string split on
commas, trimmed, with empty entries dropped (the definition of
`parseNumbers`); hence a non-empty configured value consisting only of
commas and whitespace parses to zero targets and the handler issues zero
provider calls while answering HTTP 200 with successes 0, failures 0 and
an empty results list. -/
theorem separators_only_config_dispatches_zero (s : String)
    (provider : String → String → Nat × String) (data alert nm : Json)
    (tw : String) (hne : s ≠ "")
    (hcs : ∀ c ∈ s.toList, c = ',' ∨ isPySpace c = true)
    (hf : find_first_firing_alert data = Except.ok (some alert))
    (hb : build_twiml_from_alert alert = Except.ok (nm, tw)) :
    parseNumbers s = [] ∧
    twilio_call_all (some s) provider data =
      ((CallAllBody.processed "Calls processed" 0 0 [], 200), []) := by
  have hp := parseNumbers_sep_only s hcs
  refine ⟨hp, ?_⟩
  simp [twilio_call_all, if_neg hne, hf, hb, hp, callLoop]

/-- Witness for C10 at the configured value ", ,". -/
theorem separators_only_config_dispatches_zero_witness :
    twilio_call_all (some ", ,") (fun _ _ => (201, "ok")) firingData =
      ((CallAllBody.processed "Calls processed" 0 0 [], 200), []) :=
  (separators_only_config_dispatches_zero ", ," (fun _ _ => (201, "ok"))
    firingData alertFiringDisk (Json.str "DiskFull")
    "<Response><Say>Alert triggered: DiskFull</Say></Response>"
    (by decide) (by decide) (by rfl) (by rfl)).2

end TwilioAdapter
